import Mathlib

/-!
Shallow embedding of `src/libs/core/src/LocalActivityMonitor.cc`
(class `ActivityMonitor` of the workrave repository).

Modelling conventions:
* `gint64` timestamps and thresholds become `Int` (microseconds);
  `g_get_real_time()` becomes an explicit `now : Int` argument.
* Each operation returns an `Eff` record carrying the updated monitor
  together with its externally visible effects: the list of
  `activity_state.publish()` calls it makes (in order), whether the
  listener callback was invoked, how many times `action_notify` ran,
  and the value returned (for `get_current_state`).
* The listener is modelled by a `Bool` presence flag on the monitor
  (`listener != nullptr`), and the boolean the listener callback would
  return is passed in as the `resp` argument of the notify operations.
-/

namespace ActivityMonitor

/-- The `ActivityState` enumeration (`ACTIVITY_IDLE`, `ACTIVITY_NOISE`,
`ACTIVITY_ACTIVE`, `ACTIVITY_SUSPENDED`). -/
inductive ActivityState where
  | idle
  | noise
  | active
  | suspended
deriving DecidableEq, Repr

/-- The mutable fields of class `ActivityMonitor` that the modelled
operations read or write. -/
structure Monitor where
  activity_state : ActivityState
  first_action_time : Int
  last_action_time : Int
  noise_threshold : Int
  activity_threshold : Int
  idle_threshold : Int
  sensitivity : Int
  prev_x : Int
  prev_y : Int
  button_is_pressed : Bool
  listener : Bool
deriving DecidableEq, Repr

/-- The result of running one operation: the updated monitor plus its
externally visible effects. -/
structure Eff where
  monitor : Monitor
  pub : List ActivityState
  notified : Bool
  actions : Nat
  ret : Option ActivityState
deriving DecidableEq, Repr

/-- An operation that only mutates the monitor, with no publish, no
listener call, no action and no return value. -/
def Eff.ofMonitor (m : Monitor) : Eff :=
  ⟨m, [], false, 0, none⟩

/-- `G_USEC_PER_SEC`. -/
def G_USEC_PER_SEC : Int := 1000000

/-- The monitor produced by `ActivityMonitor::ActivityMonitor()`: the
constructor in the source sets the three thresholds (in microseconds).
The remaining member initialisers live in the header `ActivityMonitor.hh`,
which is not part of the sources; those fields are modelled from the
spec: initial state `Idle`, timestamps `0` (meaning unset), no listener.
The default `sensitivity` is not given by the spec, so it is left as a
parameter. -/
def initMonitor (sens : Int) : Monitor :=
  { activity_state := .idle
    first_action_time := 0
    last_action_time := 0
    noise_threshold := 1 * G_USEC_PER_SEC
    activity_threshold := 2 * G_USEC_PER_SEC
    idle_threshold := 5 * G_USEC_PER_SEC
    sensitivity := sens
    prev_x := 0
    prev_y := 0
    button_is_pressed := false
    listener := false }

/-- `ActivityMonitor::suspend()`: set the state to `ACTIVITY_SUSPENDED`
and publish it. -/
def suspend (m : Monitor) : Eff :=
  let m1 := { m with activity_state := .suspended }
  ⟨m1, [m1.activity_state], false, 0, none⟩

/-- `ActivityMonitor::resume()`: set the state to `ACTIVITY_IDLE` and
publish it. -/
def resume (m : Monitor) : Eff :=
  let m1 := { m with activity_state := .idle }
  ⟨m1, [m1.activity_state], false, 0, none⟩

/-- `ActivityMonitor::force_idle()`: unless suspended, set the state to
`ACTIVITY_IDLE` and clear `last_action_time`; publish the resulting
state unconditionally. -/
def force_idle (m : Monitor) : Eff :=
  let m1 :=
    if m.activity_state ≠ .suspended then
      { m with activity_state := .idle, last_action_time := 0 }
    else
      m
  ⟨m1, [m1.activity_state], false, 0, none⟩

/-- `ActivityMonitor::get_current_state()`: lazily demote `ACTIVITY_ACTIVE`
to `ACTIVITY_IDLE` when `now - last_action_time > idle_threshold`, then
publish and return the state. -/
def get_current_state (m : Monitor) (now : Int) : Eff :=
  let m1 :=
    if m.activity_state = .active ∧ now - m.last_action_time > m.idle_threshold then
      { m with activity_state := .idle }
    else
      m
  ⟨m1, [m1.activity_state], false, 0, some m1.activity_state⟩

/-- `ActivityMonitor::set_parameters(noise, activity, idle, sensitivity)`:
store the thresholds converted from milliseconds to microseconds, store
the sensitivity, and reset the state to `ACTIVITY_IDLE`.  No publish. -/
def set_parameters (m : Monitor) (noise activity idle sens : Int) : Eff :=
  Eff.ofMonitor
    { m with
      noise_threshold := noise * 1000
      activity_threshold := activity * 1000
      idle_threshold := idle * 1000
      sensitivity := sens
      activity_state := .idle }

/-- `ActivityMonitor::get_parameters(...)`: read back the thresholds in
milliseconds (C integer division, truncation toward zero) and the
sensitivity. -/
def get_parameters (m : Monitor) : Int × Int × Int × Int :=
  (Int.tdiv m.noise_threshold 1000,
   Int.tdiv m.activity_threshold 1000,
   Int.tdiv m.idle_threshold 1000,
   m.sensitivity)

/-- `ActivityMonitor::shift_time(delta)`: add `delta * G_USEC_PER_SEC`
to each of the two timestamps that is non-zero. -/
def shift_time (m : Monitor) (delta : Int) : Eff :=
  let d := delta * G_USEC_PER_SEC
  Eff.ofMonitor
    { m with
      last_action_time :=
        if m.last_action_time ≠ 0 then m.last_action_time + d else m.last_action_time
      first_action_time :=
        if m.first_action_time ≠ 0 then m.first_action_time + d else m.first_action_time }

/-- `ActivityMonitor::set_listener(l)`: replace the listener reference. -/
def set_listener (m : Monitor) (l : Bool) : Eff :=
  Eff.ofMonitor { m with listener := l }

/-- `ActivityMonitor::call_listener()`: capture the listener under the
lock, invoke it when present; when it returns `false` clear the
listener reference.  `resp` is the boolean the listener callback would
return. -/
def call_listener (m : Monitor) (resp : Bool) : Eff :=
  if m.listener then
    if resp then ⟨m, [], true, 0, none⟩
    else ⟨{ m with listener := false }, [], true, 0, none⟩
  else
    ⟨m, [], false, 0, none⟩

/-- `ActivityMonitor::action_notify()`: the state-machine switch on
`activity_state`, the unconditional `last_action_time = now` after the
switch, then `call_listener()`.  No publish. -/
def action_notify (m : Monitor) (now : Int) (resp : Bool) : Eff :=
  let m1 :=
    match m.activity_state with
    | .idle =>
        { m with
          first_action_time := now
          last_action_time := now
          activity_state :=
            if m.activity_threshold = 0 then ActivityState.active else ActivityState.noise }
    | .noise =>
        if now - m.last_action_time > m.noise_threshold then
          { m with first_action_time := now }
        else if now - m.first_action_time ≥ m.activity_threshold then
          { m with activity_state := .active }
        else
          m
    | _ => m
  let m2 := { m1 with last_action_time := now }
  let c := call_listener m2 resp
  ⟨c.monitor, [], c.notified, 1, none⟩

/-- `ActivityMonitor::mouse_notify(x, y, wheel_delta)`: compute the
displacement from the cached coordinates, update the cache
unconditionally, and register an action exactly when a displacement
reaches the sensitivity, the wheel moved, or a button is held. -/
def mouse_notify (m : Monitor) (x y wheel_delta : Int) (now : Int) (resp : Bool) : Eff :=
  let delta_x := x - m.prev_x
  let delta_y := y - m.prev_y
  let m1 := { m with prev_x := x, prev_y := y }
  if |delta_x| ≥ m.sensitivity ∨ |delta_y| ≥ m.sensitivity ∨ wheel_delta ≠ 0 ∨
      m.button_is_pressed then
    action_notify m1 now resp
  else
    Eff.ofMonitor m1

/-- `ActivityMonitor::button_notify(is_press)`: record the button state;
a press (only) registers an action. -/
def button_notify (m : Monitor) (is_press : Bool) (now : Int) (resp : Bool) : Eff :=
  let m1 := { m with button_is_pressed := is_press }
  if is_press then action_notify m1 now resp else Eff.ofMonitor m1

/-- `ActivityMonitor::keyboard_notify(repeat)`: the repeat flag is
ignored; every key event registers an action. -/
def keyboard_notify (m : Monitor) (_repeat : Bool) (now : Int) (resp : Bool) : Eff :=
  action_notify m now resp

/-! ### Event sequences and reachability -/

/-- An input-source event: a generic action, a mouse event, a button
event or a keyboard event, each carrying the real time at which it
arrives and the boolean response of the listener (consulted only if
the listener is actually invoked). -/
inductive AEv where
  | act (now : Int) (resp : Bool)
  | mouse (x y wheel_delta now : Int) (resp : Bool)
  | button (is_press : Bool) (now : Int) (resp : Bool)
  | key (rep : Bool) (now : Int) (resp : Bool)
deriving DecidableEq, Repr

/-- Dispatch one input-source event to the corresponding notify
operation. -/
def stepA (m : Monitor) : AEv → Eff
  | .act now resp => action_notify m now resp
  | .mouse x y w now resp => mouse_notify m x y w now resp
  | .button p now resp => button_notify m p now resp
  | .key r now resp => keyboard_notify m r now resp

/-- Run a list of input-source events; `true` iff the listener was
invoked at least once along the run. -/
def anyNotify (m : Monitor) : List AEv → Bool
  | [] => false
  | e :: rest =>
      let r := stepA m e
      r.notified || anyNotify r.monitor rest

/-- The monitor states reachable from a freshly constructed monitor by
the public operations. -/
inductive Reachable : Monitor → Prop where
  | init (sens : Int) : Reachable (initMonitor sens)
  | step_suspend {m} : Reachable m → Reachable (suspend m).monitor
  | step_resume {m} : Reachable m → Reachable (resume m).monitor
  | step_force_idle {m} : Reachable m → Reachable (force_idle m).monitor
  | step_get_current_state {m} (now : Int) :
      Reachable m → Reachable (get_current_state m now).monitor
  | step_set_parameters {m} (noise activity idle sens : Int) :
      Reachable m → Reachable (set_parameters m noise activity idle sens).monitor
  | step_shift_time {m} (delta : Int) :
      Reachable m → Reachable (shift_time m delta).monitor
  | step_set_listener {m} (l : Bool) :
      Reachable m → Reachable (set_listener m l).monitor
  | step_action {m} (now : Int) (resp : Bool) :
      Reachable m → Reachable (action_notify m now resp).monitor
  | step_mouse {m} (x y w now : Int) (resp : Bool) :
      Reachable m → Reachable (mouse_notify m x y w now resp).monitor
  | step_button {m} (p : Bool) (now : Int) (resp : Bool) :
      Reachable m → Reachable (button_notify m p now resp).monitor
  | step_key {m} (r : Bool) (now : Int) (resp : Bool) :
      Reachable m → Reachable (keyboard_notify m r now resp).monitor

/-! ### Lock discipline

The source guards all state with a single (recursive) mutex `lock`.
To reason about which lock acquisitions are outstanding when the
listener callback runs, each notify operation is abstracted to the
sequence of `lock.lock()`, `lock.unlock()` and `l->action_notify()`
events it performs, read off line by line from the source. -/

/-- A lock-relevant event: acquiring the lock, releasing it, or
invoking the listener callback. -/
inductive LEv where
  | lock
  | unlock
  | listen
deriving DecidableEq, Repr

/-- Lock events of `ActivityMonitor::call_listener()`: lock, capture
the listener, unlock; if a listener is present invoke it, and on a
`false` response lock and unlock again to clear it. -/
def lockTrace_call_listener (hasListener resp : Bool) : List LEv :=
  [.lock, .unlock] ++
    (if hasListener then
      [LEv.listen] ++ (if resp then [] else [LEv.lock, LEv.unlock])
    else [])

/-- Lock events of `ActivityMonitor::action_notify()`: lock, run the
state machine, unlock, then `call_listener()`. -/
def lockTrace_action_notify (hasListener resp : Bool) : List LEv :=
  [.lock, .unlock] ++ lockTrace_call_listener hasListener resp

/-- Lock events of `ActivityMonitor::mouse_notify(...)`: lock, update
the coordinate cache, call `action_notify()` when the event counts as
an action, unlock. -/
def lockTrace_mouse_notify (isAction hasListener resp : Bool) : List LEv :=
  [LEv.lock] ++ (if isAction then lockTrace_action_notify hasListener resp else []) ++
    [LEv.unlock]

/-- Lock events of `ActivityMonitor::button_notify(is_press)`: lock,
record the flag, call `action_notify()` on a press, unlock. -/
def lockTrace_button_notify (isPress hasListener resp : Bool) : List LEv :=
  [LEv.lock] ++ (if isPress then lockTrace_action_notify hasListener resp else []) ++
    [LEv.unlock]

/-- Lock events of `ActivityMonitor::keyboard_notify(repeat)`: lock,
call `action_notify()`, unlock. -/
def lockTrace_keyboard_notify (hasListener resp : Bool) : List LEv :=
  [LEv.lock] ++ lockTrace_action_notify hasListener resp ++ [LEv.unlock]

/-- The lock-nesting depths at which the listener invocations of a
trace occur, starting from depth `d`. -/
def listenDepths : List LEv → Int → List Int
  | [], _ => []
  | .lock :: rest, d => listenDepths rest (d + 1)
  | .unlock :: rest, d => listenDepths rest (d - 1)
  | .listen :: rest, d => d :: listenDepths rest d

/-! ### Helper lemmas -/

@[simp]
theorem call_listener_state (m : Monitor) (resp : Bool) :
    (call_listener m resp).monitor.activity_state = m.activity_state := by
  unfold call_listener; split_ifs <;> rfl

@[simp]
theorem call_listener_first (m : Monitor) (resp : Bool) :
    (call_listener m resp).monitor.first_action_time = m.first_action_time := by
  unfold call_listener; split_ifs <;> rfl

@[simp]
theorem call_listener_last (m : Monitor) (resp : Bool) :
    (call_listener m resp).monitor.last_action_time = m.last_action_time := by
  unfold call_listener; split_ifs <;> rfl

@[simp]
theorem call_listener_prev_x (m : Monitor) (resp : Bool) :
    (call_listener m resp).monitor.prev_x = m.prev_x := by
  unfold call_listener; split_ifs <;> rfl

@[simp]
theorem call_listener_prev_y (m : Monitor) (resp : Bool) :
    (call_listener m resp).monitor.prev_y = m.prev_y := by
  unfold call_listener; split_ifs <;> rfl

@[simp]
theorem call_listener_listener (m : Monitor) (resp : Bool) :
    (call_listener m resp).monitor.listener = (m.listener && resp) := by
  unfold call_listener; split_ifs <;> simp_all

@[simp]
theorem call_listener_notified (m : Monitor) (resp : Bool) :
    (call_listener m resp).notified = m.listener := by
  unfold call_listener; split_ifs <;> simp_all

/-! ### Claims -/

/-- C1: for a generic action at time `now` in state `Noise`: a gap
strictly above `noise_threshold` keeps the state `Noise` and resets
`first_action_time` to `now`; otherwise the state becomes `Active`
exactly when `now - first_action_time ≥ activity_threshold`; in every
case `last_action_time` ends up equal to `now`. -/
theorem C1_noise_action (m : Monitor) (now : Int) (resp : Bool)
    (h : m.activity_state = ActivityState.noise) :
    (now - m.last_action_time > m.noise_threshold →
      (action_notify m now resp).monitor.activity_state = ActivityState.noise ∧
      (action_notify m now resp).monitor.first_action_time = now) ∧
    (¬ now - m.last_action_time > m.noise_threshold →
      (now - m.first_action_time ≥ m.activity_threshold →
        (action_notify m now resp).monitor.activity_state = ActivityState.active) ∧
      (¬ now - m.first_action_time ≥ m.activity_threshold →
        (action_notify m now resp).monitor.activity_state = ActivityState.noise)) ∧
    (action_notify m now resp).monitor.last_action_time = now := by
  obtain ⟨st, f, l, n, a, i, s, px, py, bp, ls⟩ := m
  cases h
  simp only [action_notify]
  constructor
  · intro hgap
    simp only [if_pos hgap]
    simp
  · constructor
    · intro hgap
      simp only [if_neg hgap]
      constructor
      · intro hact
        simp only [if_pos hact]
        simp
      · intro hact
        simp only [if_neg hact]
        simp
    · simp

/-- Witness for C1 at a concrete input: state `Noise`,
`last_action_time = 15`, `first_action_time = 0`,
`noise_threshold = 10`, `activity_threshold = 18`, action at `now = 20`. -/
def mW1 : Monitor :=
  ⟨.noise, 0, 15, 10, 18, 100, 3, 0, 0, false, true⟩

theorem C1_noise_action_witness :
    (action_notify mW1 20 true).monitor.activity_state = ActivityState.active ∧
    (action_notify mW1 20 true).monitor.last_action_time = 20 := by
  have h := C1_noise_action mW1 20 true rfl
  exact ⟨(h.2.1 (by decide)).1 (by decide), h.2.2⟩

/-- C2: for a generic action at time `now` in state `Idle`: both
timestamps are set to `now`, and the state becomes `Active` when
`activity_threshold = 0`, else `Noise`. -/
theorem C2_idle_action (m : Monitor) (now : Int) (resp : Bool)
    (h : m.activity_state = ActivityState.idle) :
    (action_notify m now resp).monitor.first_action_time = now ∧
    (action_notify m now resp).monitor.last_action_time = now ∧
    (action_notify m now resp).monitor.activity_state =
      (if m.activity_threshold = 0 then ActivityState.active else ActivityState.noise) := by
  obtain ⟨st, f, l, n, a, i, s, px, py, bp, ls⟩ := m
  cases h
  simp only [action_notify]
  split_ifs <;> simp_all

/-- Witness for C2 at a concrete input: a fresh monitor (state `Idle`,
`activity_threshold = 2000000 ≠ 0`) receiving an action at `now = 7`. -/
theorem C2_idle_action_witness :
    (action_notify (initMonitor 3) 7 true).monitor.first_action_time = 7 ∧
    (action_notify (initMonitor 3) 7 true).monitor.last_action_time = 7 ∧
    (action_notify (initMonitor 3) 7 true).monitor.activity_state =
      (if (initMonitor 3).activity_threshold = 0 then ActivityState.active
       else ActivityState.noise) :=
  C2_idle_action (initMonitor 3) 7 true rfl

/-- C3: `get_current_state` at time `now` demotes a stored `Active`
state to `Idle` exactly when `now - last_action_time > idle_threshold`,
returns the (possibly updated) stored state, and changes nothing else. -/
theorem C3_get_current_state (m : Monitor) (now : Int) :
    (get_current_state m now).monitor =
      (if m.activity_state = ActivityState.active ∧
          now - m.last_action_time > m.idle_threshold then
        { m with activity_state := ActivityState.idle }
      else m) ∧
    (get_current_state m now).ret = some (get_current_state m now).monitor.activity_state := by
  constructor <;> rfl

/-- C4 counterexample: in state `Suspended` with `last_action_time = 5`,
an action at `now = 10` changes `last_action_time` (the unconditional
`last_action_time = now` after the switch also runs when suspended),
contradicting the claim that both timestamps are left unchanged. -/
def cm4 : Monitor :=
  ⟨.suspended, 3, 5, 1000000, 2000000, 5000000, 3, 0, 0, false, true⟩

theorem C4_suspended_counterexample :
    cm4.activity_state = ActivityState.suspended ∧
    ¬ (action_notify cm4 10 true).monitor.last_action_time = cm4.last_action_time := by
  constructor
  · rfl
  · decide

/-- C4 amended: for a generic action at time `now` in state `Suspended`,
the state stays `Suspended` and `first_action_time` is unchanged, but
`last_action_time` is set to `now` by the unconditional update after
the switch. -/
theorem C4_suspended_action (m : Monitor) (now : Int) (resp : Bool)
    (h : m.activity_state = ActivityState.suspended) :
    (action_notify m now resp).monitor.activity_state = ActivityState.suspended ∧
    (action_notify m now resp).monitor.first_action_time = m.first_action_time ∧
    (action_notify m now resp).monitor.last_action_time = now := by
  obtain ⟨st, f, l, n, a, i, s, px, py, bp, ls⟩ := m
  cases h
  simp [action_notify]

/-- Witness for C4 (amended) at a concrete input. -/
theorem C4_suspended_action_witness :
    (action_notify cm4 10 true).monitor.activity_state = ActivityState.suspended ∧
    (action_notify cm4 10 true).monitor.first_action_time = cm4.first_action_time ∧
    (action_notify cm4 10 true).monitor.last_action_time = 10 :=
  C4_suspended_action cm4 10 true rfl

@[simp]
theorem action_notify_prev_x (m : Monitor) (now : Int) (resp : Bool) :
    (action_notify m now resp).monitor.prev_x = m.prev_x := by
  obtain ⟨st, f, l, n, a, i, s, px, py, bp, ls⟩ := m
  cases st
  all_goals simp only [action_notify]
  all_goals try split_ifs
  all_goals simp

@[simp]
theorem action_notify_prev_y (m : Monitor) (now : Int) (resp : Bool) :
    (action_notify m now resp).monitor.prev_y = m.prev_y := by
  obtain ⟨st, f, l, n, a, i, s, px, py, bp, ls⟩ := m
  cases st
  all_goals simp only [action_notify]
  all_goals try split_ifs
  all_goals simp

@[simp]
theorem action_notify_actions (m : Monitor) (now : Int) (resp : Bool) :
    (action_notify m now resp).actions = 1 :=
  rfl

/-- C5: `mouse_notify(x, y, wheel_delta)` updates the cached coordinates
to `(x, y)` unconditionally, and registers exactly one action iff
`|dx| ≥ sensitivity`, `|dy| ≥ sensitivity`, the wheel moved, or a
button is held (with `dx`, `dy` measured against the old cache). -/
theorem C5_mouse_notify (m : Monitor) (x y wheel_delta now : Int) (resp : Bool) :
    (mouse_notify m x y wheel_delta now resp).monitor.prev_x = x ∧
    (mouse_notify m x y wheel_delta now resp).monitor.prev_y = y ∧
    (mouse_notify m x y wheel_delta now resp).actions =
      (if |x - m.prev_x| ≥ m.sensitivity ∨ |y - m.prev_y| ≥ m.sensitivity ∨
          wheel_delta ≠ 0 ∨ m.button_is_pressed then 1 else 0) := by
  by_cases hc : |x - m.prev_x| ≥ m.sensitivity ∨ |y - m.prev_y| ≥ m.sensitivity ∨
      wheel_delta ≠ 0 ∨ m.button_is_pressed = true
  · simp [mouse_notify, hc, Eff.ofMonitor]
  · simp only [mouse_notify, Eff.ofMonitor, if_neg hc]
    simp [hc]

/-- C10: a freshly constructed monitor has `noise_threshold` 1 s,
`activity_threshold` 2 s and `idle_threshold` 5 s (in microseconds), so
`get_parameters` reports 1000 ms, 2000 ms and 5000 ms. -/
theorem C10_default_parameters (sens : Int) :
    (initMonitor sens).noise_threshold = 1000000 ∧
    (initMonitor sens).activity_threshold = 2000000 ∧
    (initMonitor sens).idle_threshold = 5000000 ∧
    (get_parameters (initMonitor sens)).1 = 1000 ∧
    (get_parameters (initMonitor sens)).2.1 = 2000 ∧
    (get_parameters (initMonitor sens)).2.2.1 = 5000 := by
  refine ⟨rfl, rfl, rfl, rfl, rfl, rfl⟩

/-- C6 counterexample: a `mouse_notify` call whose event counts as an
action, with a listener present, invokes the listener while one
acquisition of the (recursive) lock — the one made by `mouse_notify`
itself — is still
outstanding: the listener runs at lock depth 1, not 0. -/
theorem C6_lock_counterexample :
    listenDepths (lockTrace_mouse_notify true true true) 0 = [1] ∧
    ¬ ∀ d ∈ listenDepths (lockTrace_mouse_notify true true true) 0, d = 0 := by
  decide

/-- C6 amended: a direct `action_notify` invokes the listener only after
releasing every acquisition it made itself (depth 0); but
`mouse_notify`, `button_notify` and `keyboard_notify` reach the
listener through the nested `action_notify` while their own acquisition
of the recursive lock is still held, so there the listener runs at
depth exactly 1. -/
theorem C6_lock_discipline (hasL resp isAction isPress : Bool) :
    listenDepths (lockTrace_action_notify hasL resp) 0 = (if hasL then [0] else []) ∧
    listenDepths (lockTrace_mouse_notify isAction hasL resp) 0 =
      (if isAction && hasL then [1] else []) ∧
    listenDepths (lockTrace_button_notify isPress hasL resp) 0 =
      (if isPress && hasL then [1] else []) ∧
    listenDepths (lockTrace_keyboard_notify hasL resp) 0 = (if hasL then [1] else []) := by
  cases hasL <;> cases resp <;> cases isAction <;> cases isPress <;> decide

/-- C7 counterexample: `set_parameters` on a monitor in state `Active`
changes the state (to `Idle`) but publishes nothing. -/
def cm7 : Monitor :=
  ⟨.active, 3, 5, 1000000, 2000000, 5000000, 3, 0, 0, false, false⟩

theorem C7_publish_counterexample :
    (set_parameters cm7 10 20 30 4).monitor.activity_state ≠ cm7.activity_state ∧
    (set_parameters cm7 10 20 30 4).pub = [] := by
  decide

/-- C7 amended: `suspend`, `resume`, `force_idle` and
`get_current_state` always publish the resulting state; but
`set_parameters` and the event-driven transitions of `action_notify`
change the state without publishing it (`action_notify` only notifies
the listener). -/
theorem C7_publication (m : Monitor) (now noise activity idle sens : Int) (resp : Bool) :
    (suspend m).pub = [(suspend m).monitor.activity_state] ∧
    (resume m).pub = [(resume m).monitor.activity_state] ∧
    (force_idle m).pub = [(force_idle m).monitor.activity_state] ∧
    (get_current_state m now).pub = [(get_current_state m now).monitor.activity_state] ∧
    (set_parameters m noise activity idle sens).pub = [] ∧
    (action_notify m now resp).pub = [] := by
  exact ⟨rfl, rfl, rfl, rfl, rfl, rfl⟩

/-- C8 counterexample: the reachable state obtained by one action at
time 100 followed by `force_idle` has `first_action_time = 100` but
`last_action_time = 0`; `shift_time 1` then moves only
`first_action_time`, so the gap between the two timestamps is not
preserved. -/
def cm8 : Monitor :=
  (force_idle (action_notify (initMonitor 3) 100 true).monitor).monitor

theorem C8_shift_time_counterexample :
    Reachable cm8 ∧
    cm8.first_action_time = 100 ∧
    cm8.last_action_time = 0 ∧
    ¬ (shift_time cm8 1).monitor.last_action_time -
        (shift_time cm8 1).monitor.first_action_time =
      cm8.last_action_time - cm8.first_action_time := by
  refine ⟨?_, by decide, by decide, by decide⟩
  exact Reachable.step_force_idle (Reachable.step_action 100 true (Reachable.init 3))

/-- C8 amended: `shift_time d` adds `d * 1000000` microseconds to each
timestamp that is non-zero and leaves each timestamp that is `0`
unchanged; the gap between the two timestamps is preserved whenever
both are set or both unset (it is not preserved in reachable states
where exactly one of them is `0`, e.g. after `force_idle`). -/
theorem C8_shift_time (m : Monitor) (d : Int) :
    (m.first_action_time = 0 → (shift_time m d).monitor.first_action_time = 0) ∧
    (m.first_action_time ≠ 0 →
      (shift_time m d).monitor.first_action_time = m.first_action_time + d * 1000000) ∧
    (m.last_action_time = 0 → (shift_time m d).monitor.last_action_time = 0) ∧
    (m.last_action_time ≠ 0 →
      (shift_time m d).monitor.last_action_time = m.last_action_time + d * 1000000) ∧
    ((m.first_action_time = 0 ↔ m.last_action_time = 0) →
      (shift_time m d).monitor.last_action_time -
          (shift_time m d).monitor.first_action_time =
        m.last_action_time - m.first_action_time) := by
  simp only [shift_time, Eff.ofMonitor, G_USEC_PER_SEC]
  split_ifs with h1 h2 <;>
    refine ⟨fun h => ?_, fun h => ?_, fun h => ?_, fun h => ?_, fun h => ?_⟩ <;>
    simp_all

/-- Witness for C8 (amended) at a concrete input: both timestamps set. -/
def mW8 : Monitor :=
  ⟨.noise, 3, 7, 1000000, 2000000, 5000000, 3, 0, 0, false, false⟩

theorem C8_shift_time_witness :
    (shift_time mW8 2).monitor.first_action_time = 3 + 2 * 1000000 ∧
    (shift_time mW8 2).monitor.last_action_time = 7 + 2 * 1000000 ∧
    (shift_time mW8 2).monitor.last_action_time -
        (shift_time mW8 2).monitor.first_action_time = 7 - 3 := by
  have h := C8_shift_time mW8 2
  exact ⟨h.2.1 (by decide), h.2.2.2.1 (by decide), h.2.2.2.2 (by decide)⟩

theorem action_notify_listener (m : Monitor) (now : Int) (resp : Bool) :
    (action_notify m now resp).monitor.listener = (m.listener && resp) := by
  obtain ⟨st, f, l, n, a, i, s, px, py, bp, ls⟩ := m
  cases st
  all_goals simp only [action_notify]
  all_goals try split_ifs
  all_goals simp

theorem action_notify_notified (m : Monitor) (now : Int) (resp : Bool) :
    (action_notify m now resp).notified = m.listener := by
  obtain ⟨st, f, l, n, a, i, s, px, py, bp, ls⟩ := m
  cases st
  all_goals simp only [action_notify]
  all_goals try split_ifs
  all_goals simp

theorem stepA_no_listener (m : Monitor) (e : AEv) (h : m.listener = false) :
    (stepA m e).monitor.listener = false ∧ (stepA m e).notified = false := by
  cases e
  all_goals simp only [stepA, mouse_notify, button_notify, keyboard_notify]
  all_goals try split_ifs
  all_goals simp [action_notify_listener, action_notify_notified, Eff.ofMonitor, h]

theorem anyNotify_no_listener (m : Monitor) (evs : List AEv) (h : m.listener = false) :
    anyNotify m evs = false := by
  induction evs generalizing m with
  | nil => rfl
  | cons e rest ih =>
      obtain ⟨h1, h2⟩ := stepA_no_listener m e h
      simp [anyNotify, h2, ih _ h1]

/-- C9: when a listener is subscribed, an action notification invokes
it; if it returns `false` the listener reference is cleared and no
subsequent input-source event of any kind invokes a listener until
`set_listener` is called again; if it returns `true` it stays
subscribed. -/
theorem C9_listener_unsubscribe (m : Monitor) (now : Int) (evs : List AEv)
    (h : m.listener = true) :
    (action_notify m now false).notified = true ∧
    (action_notify m now false).monitor.listener = false ∧
    anyNotify (action_notify m now false).monitor evs = false ∧
    (action_notify m now true).monitor.listener = true := by
  refine ⟨?_, ?_, ?_, ?_⟩
  · rw [action_notify_notified, h]
  · rw [action_notify_listener, h]; rfl
  · exact anyNotify_no_listener _ evs (by rw [action_notify_listener, h]; rfl)
  · rw [action_notify_listener, h]; rfl

/-- Witness for C9 at a concrete input: a fresh-style monitor with a
listener, a declined notification at `now = 3`, then a keyboard and a
mouse event. -/
def mW9 : Monitor :=
  ⟨.idle, 0, 0, 1000000, 2000000, 5000000, 3, 0, 0, false, true⟩

theorem C9_listener_unsubscribe_witness :
    (action_notify mW9 3 false).notified = true ∧
    (action_notify mW9 3 false).monitor.listener = false ∧
    anyNotify (action_notify mW9 3 false).monitor
      [AEv.key false 5 true, AEv.mouse 100 100 0 6 true] = false ∧
    (action_notify mW9 3 true).monitor.listener = true :=
  C9_listener_unsubscribe mW9 3 [AEv.key false 5 true, AEv.mouse 100 100 0 6 true] rfl

end ActivityMonitor
